import Mathlib

/-!
Verification development for the Gameslab LCD frame buffer driver
(`src/drivers/video/fbdev/gslcdfb.c`).

The pure and effectful operations of the driver are shallowly embedded:

* `gslcd_fb_setcolreg` is embedded as a pure function from its inputs and the
  current 16-entry pseudo-palette to the returned status code and the updated
  palette.  C `unsigned` arithmetic is modelled on `Nat` with explicit
  `% 2 ^ 32` wherever the C expression can exceed 32 bits.
* `gslcd_fb_blank` is embedded as a function from the blank mode to the list
  of 32-bit register writes it performs plus its return code.
* `gslcdfb_assign` and `gslcdfb_release` are embedded as functions producing
  an explicit event trace (mappings, allocations, register writes, frees,
  framework calls) together with the result; the outcomes of the external
  fallible calls (`devm_ioremap_resource`, `ioremap`, `dma_alloc_coherent`,
  `fb_alloc_cmap`, `register_framebuffer`) are supplied by an `Env` record.
-/

namespace Gslcdfb

/-- Register offset of the enable register (`REG_OFF_EN` in the source). -/
def REG_OFF_EN : Nat := 0

/-- Register offset of the frame-pointer register (`REG_OFF_FB_PTR`). -/
def REG_OFF_FB_PTR : Nat := 1

/-- Constant `BYTES_PER_PIXEL`: the hardware is 24bpp, 3 bytes per pixel. -/
def BYTES_PER_PIXEL : Nat := 3

/-- Constant `PALETTE_ENTRIES_NO`: the pseudo palette has 16 entries. -/
def PALETTE_ENTRIES_NO : Nat := 16

/-- Constant `RED_SHIFT` from the source. -/
def RED_SHIFT : Nat := 16

/-- Constant `GREEN_SHIFT` from the source. -/
def GREEN_SHIFT : Nat := 8

/-- Constant `BLUE_SHIFT` from the source. -/
def BLUE_SHIFT : Nat := 0

/-- Modulus of C 32-bit unsigned arithmetic. -/
def U32 : Nat := 2 ^ 32

/-- Linux `-EINVAL` (`EINVAL` is 22). -/
def EINVAL_NEG : Int := -22

/-- Linux `-ENOMEM` (`ENOMEM` is 12). -/
def ENOMEM_NEG : Int := -12

/-- The platform page size used by `PAGE_ALIGN` (4 KiB pages). -/
def PAGE_SIZE : Nat := 4096

/-- Macro `PAGE_ALIGN(n)`: round `n` up to the next multiple of the page size. -/
def PAGE_ALIGN (n : Nat) : Nat := ((n + PAGE_SIZE - 1) / PAGE_SIZE) * PAGE_SIZE

/-- Linux `FB_BLANK_UNBLANK`. -/
def FB_BLANK_UNBLANK : Int := 0

/-- Linux `FB_BLANK_NORMAL`. -/
def FB_BLANK_NORMAL : Int := 1

/-- Linux `FB_BLANK_VSYNC_SUSPEND`. -/
def FB_BLANK_VSYNC_SUSPEND : Int := 2

/-- Linux `FB_BLANK_HSYNC_SUSPEND`. -/
def FB_BLANK_HSYNC_SUSPEND : Int := 3

/-- Linux `FB_BLANK_POWERDOWN`. -/
def FB_BLANK_POWERDOWN : Int := 4

/--
Function `gslcd_fb_setcolreg(regno, red, green, blue, transp, fbi)`, embedded as a
pure function.  `grayscale` stands for `fbi->var.grayscale`, `palette` for the
16-entry `fbi->pseudo_palette` array.  The result is the C return value
(`0` or `-EINVAL`) paired with the palette after the call.  All arithmetic is
C 32-bit unsigned arithmetic: products, sums and left shifts are reduced
`% U32` exactly where the C expression is reduced mod `2 ^ 32`.
-/
def gslcd_fb_setcolreg (regno red green blue transp : Nat) (grayscale : Bool)
    (palette : List Nat) : Int × List Nat :=
  if PALETTE_ENTRIES_NO ≤ regno then
    (EINVAL_NEG, palette)
  else
    -- grayscale = 0.30*R + 0.59*G + 0.11*B, on the pre-downshift inputs
    let gray := ((red * 77 + green * 151 + blue * 28 + 127) % U32) >>> 8
    let red' := if grayscale then gray else red
    let green' := if grayscale then gray else green
    let blue' := if grayscale then gray else blue
    -- we only handle 8 bits of each color
    let red8 := red' >>> 8
    let green8 := green' >>> 8
    let blue8 := blue' >>> 8
    let packed := ((red8 <<< RED_SHIFT) % U32) |||
                  ((green8 <<< GREEN_SHIFT) % U32) |||
                  ((blue8 <<< BLUE_SHIFT) % U32)
    (0, palette.set regno packed)

/--
Function `gslcd_fb_blank(blank_mode, fbi)`, embedded as the list of
`(offset, value)` register writes it performs together with its return
value.  The switch writes 1 to `REG_OFF_EN` for `FB_BLANK_UNBLANK`, writes 0
for the four blank modes (which fall through to `default: break`), and writes
nothing for any other mode; it always returns 0.
-/
def gslcd_fb_blank (blank_mode : Int) : List (Nat × Nat) × Int :=
  if blank_mode = FB_BLANK_UNBLANK then
    ([(REG_OFF_EN, 0x1)], 0)
  else if blank_mode = FB_BLANK_NORMAL ∨ blank_mode = FB_BLANK_VSYNC_SUSPEND ∨
          blank_mode = FB_BLANK_HSYNC_SUSPEND ∨ blank_mode = FB_BLANK_POWERDOWN then
    ([(REG_OFF_EN, 0x0)], 0)
  else
    ([], 0)

/-- The display state reflected by the hardware enable bit. -/
inductive DisplayState where
  | Enabled
  | Disabled
deriving DecidableEq, Repr

/--
The display state after a list of register writes, starting from state `s`
(`none` when unknown): the last write to `REG_OFF_EN` decides, a nonzero
value enabling the display.
-/
def displayStateAfter (writes : List (Nat × Nat)) (s : Option DisplayState) :
    Option DisplayState :=
  writes.foldl
    (fun st w =>
      if w.1 = REG_OFF_EN then
        some (if w.2 = 0 then DisplayState.Disabled else DisplayState.Enabled)
      else st)
    s

/--
An observable effect of `gslcdfb_assign` / `gslcdfb_release`: mappings,
allocations, zeroing, register writes, frees, and graphics-framework calls,
in program order.
-/
inductive Event where
  | devmIoremapRes
  | ioremapFB (phys size : Nat)
  | dmaAllocCoherent (size : Nat)
  | memsetZero (size : Nat)
  | regWrite (offset val : Nat)
  | allocCmap (entries : Nat)
  | registerFB
  | unregisterFB
  | deallocCmap
  | dmaFreeCoherent (size : Nat)
  | iounmapFB
deriving DecidableEq, Repr

/--
Outcomes of the external fallible calls made during `gslcdfb_assign`, plus
the (arbitrary) initial contents of freshly provided frame-buffer memory.
-/
structure Env where
  /-- Outcome of `devm_ioremap_resource`: `some e` when it fails with error `e`. -/
  regs_map_rc : Option Int
  /-- Whether `ioremap` of the fixed physical address returns non-NULL. -/
  fixed_map_ok : Bool
  /-- Outcome of `dma_alloc_coherent`: `some phys` when it succeeds, handing back
  physical address `phys`. -/
  dma_alloc : Option Nat
  /-- Return code of `fb_alloc_cmap` (0 on success). -/
  cmap_rc : Int
  /-- Return code of `register_framebuffer` (0 on success). -/
  regfb_rc : Int
  /-- byte contents of the frame-buffer memory as mapped/allocated, before
  the driver clears it. -/
  fb_init : Nat → Nat

/-- Record for `struct gslcdfb_platform_data`. -/
structure PlatformData where
  screen_height_mm : Nat
  screen_width_mm : Nat
  xres : Nat
  yres : Nat
  xvirt : Nat
  yvirt : Nat
  fb_phys : Nat

/-- Constant `gslcd_fb_default_pdata` from the source. -/
def gslcd_fb_default_pdata : PlatformData :=
  { screen_height_mm := 65
    screen_width_mm := 108
    xres := 800
    yres := 480
    xvirt := 800
    yvirt := 480
    fb_phys := 0 }

/--
The fields of `struct gslcdfb_drvdata` (plus the `fb_info` fields derived
from it) that the claims observe, as they stand after a successful
`gslcdfb_assign`.
-/
structure Drvdata where
  /-- physical address of the frame buffer. -/
  fb_phys : Nat
  /-- was the frame-buffer memory dynamically allocated? -/
  fb_alloced : Bool
  /-- Field `info.fix.smem_len`: byte length of the frame buffer. -/
  smem_len : Nat
  /-- Field `info.fix.line_length`: row stride in bytes. -/
  line_length : Nat
  /-- byte contents of the frame-buffer memory. -/
  fb_mem : Nat → Nat

/--
Frame-buffer teardown, shared by the `err_cmap` unwind label of
`gslcdfb_assign` and by `gslcdfb_release`:
`if (fb_alloced) dma_free_coherent(PAGE_ALIGN(size), ...) else iounmap(...)`.
-/
def fbTeardown (fb_alloced : Bool) (size : Nat) : Event :=
  if fb_alloced then Event.dmaFreeCoherent (PAGE_ALIGN size) else Event.iounmapFB

/--
The tail of `gslcdfb_assign` after the frame-buffer memory has been obtained
(physical address `fb_phys`, ownership flag `fb_alloced`): clear the buffer,
program `REG_OFF_FB_PTR` and `REG_OFF_EN`, allocate the colour map, register
the frame buffer, and on failure unwind through the `err_regfb` / `err_cmap`
labels.
-/
def gslcdfb_assign_from_fb (env : Env) (pdata : PlatformData) (fbsize : Nat)
    (fb_phys : Nat) (fb_alloced : Bool) : List Event × Except Int Drvdata :=
  let pre := [Event.memsetZero fbsize,
              Event.regWrite REG_OFF_FB_PTR (fb_phys % U32),
              Event.regWrite REG_OFF_EN 0x1,
              Event.allocCmap PALETTE_ENTRIES_NO]
  if env.cmap_rc ≠ 0 then
    -- err_cmap: free/unmap the frame buffer, turn off the display
    (pre ++ [fbTeardown fb_alloced fbsize, Event.regWrite REG_OFF_EN 0x0],
     Except.error env.cmap_rc)
  else
    let pre2 := pre ++ [Event.registerFB]
    if env.regfb_rc ≠ 0 then
      -- err_regfb: dealloc the cmap, then fall into err_cmap
      (pre2 ++ [Event.deallocCmap, fbTeardown fb_alloced fbsize,
                Event.regWrite REG_OFF_EN 0x0],
       Except.error env.regfb_rc)
    else
      (pre2,
       Except.ok
         { fb_phys := fb_phys
           fb_alloced := fb_alloced
           smem_len := fbsize
           line_length := pdata.xvirt * BYTES_PER_PIXEL
           fb_mem := fun i => if i < fbsize then 0 else env.fb_init i })

/--
Function `gslcdfb_assign(pdev, drvdata, pdata)`, embedded as the event trace it
produces paired with its result: the mapped-register drvdata on success, the
C error code on failure.  `fbsize = xvirt * yvirt * BYTES_PER_PIXEL`; a
nonzero `pdata.fb_phys` selects the `ioremap` (externally provided) path,
zero selects the `dma_alloc_coherent` (allocated) path, and a NULL result of
either yields `-ENOMEM`.
-/
def gslcdfb_assign (env : Env) (pdata : PlatformData) :
    List Event × Except Int Drvdata :=
  let fbsize := pdata.xvirt * pdata.yvirt * BYTES_PER_PIXEL
  match env.regs_map_rc with
  | some e => ([Event.devmIoremapRes], Except.error e)
  | none =>
    if pdata.fb_phys ≠ 0 then
      if env.fixed_map_ok then
        let rest := gslcdfb_assign_from_fb env pdata fbsize pdata.fb_phys false
        (Event.devmIoremapRes :: Event.ioremapFB pdata.fb_phys fbsize :: rest.1,
         rest.2)
      else
        ([Event.devmIoremapRes, Event.ioremapFB pdata.fb_phys fbsize],
         Except.error ENOMEM_NEG)
    else
      match env.dma_alloc with
      | some phys =>
        let rest := gslcdfb_assign_from_fb env pdata fbsize phys true
        (Event.devmIoremapRes :: Event.dmaAllocCoherent (PAGE_ALIGN fbsize) :: rest.1,
         rest.2)
      | none =>
        ([Event.devmIoremapRes, Event.dmaAllocCoherent (PAGE_ALIGN fbsize)],
         Except.error ENOMEM_NEG)

/--
Function `gslcdfb_release(dev)`, embedded as its event trace paired with its return
value: unregister the frame buffer, dealloc the colour map, free or unmap
the frame-buffer memory according to `fb_alloced`, and turn off the display.
(The `gslcd_fb_blank(VESA_POWERDOWN, ...)` call guarded by
`#if !defined(CONFIG_FRAMEBUFFER_CONSOLE) && defined(CONFIG_LOGO)` is
compiled out in the configuration modelled here.)
-/
def gslcdfb_release (d : Drvdata) : List Event × Int :=
  ([Event.unregisterFB,
    Event.deallocCmap,
    fbTeardown d.fb_alloced d.smem_len,
    Event.regWrite REG_OFF_EN 0x0],
   0)

/-! ### Helper lemmas -/

/-- The downshifted component of a 16-bit input fits in 8 bits. -/
lemma shiftRight8_lt (a : Nat) (h : a < 2 ^ 16) : a >>> 8 < 2 ^ 8 := by
  rw [Nat.shiftRight_eq_div_pow]
  omega

/-- A left shift of an 8-bit value by 16 is already reduced mod `2 ^ 32`. -/
lemma shl16_mod_u32 (a : Nat) (h : a < 2 ^ 8) : (a <<< 16) % U32 = a <<< 16 := by
  rw [Nat.shiftLeft_eq, U32]
  exact Nat.mod_eq_of_lt (by omega)

/-- A left shift of an 8-bit value by 8 is already reduced mod `2 ^ 32`. -/
lemma shl8_mod_u32 (a : Nat) (h : a < 2 ^ 8) : (a <<< 8) % U32 = a <<< 8 := by
  rw [Nat.shiftLeft_eq, U32]
  exact Nat.mod_eq_of_lt (by omega)

/-- A left shift of an 8-bit value by 0 is already reduced mod `2 ^ 32`. -/
lemma shl0_mod_u32 (a : Nat) (h : a < 2 ^ 8) : (a <<< 0) % U32 = a <<< 0 := by
  rw [Nat.shiftLeft_eq, U32]
  exact Nat.mod_eq_of_lt (by omega)

set_option maxRecDepth 8192 in
/--
In a packed word built from one 8-bit value replicated into the red, green
and blue positions, the three 8-bit colour fields are equal.
-/
lemma packed_gray_fields_eq : ∀ a : Nat, a < 2 ^ 8 →
    ((((a <<< 16) ||| (a <<< 8) ||| (a <<< 0)) >>> 16) % 2 ^ 8 =
       (((a <<< 16) ||| (a <<< 8) ||| (a <<< 0)) >>> 8) % 2 ^ 8 ∧
     (((a <<< 16) ||| (a <<< 8) ||| (a <<< 0)) >>> 8) % 2 ^ 8 =
       ((a <<< 16) ||| (a <<< 8) ||| (a <<< 0)) % 2 ^ 8) := by
  decide

/-! ### C3, C4, C5: the colour converter -/

/--
C3: for every palette index below 16 and all 16-bit colour components, with
grayscale disabled, `gslcd_fb_setcolreg` returns success and writes exactly
`((red>>8)<<16) ||| ((green>>8)<<8) ||| ((blue>>8)<<0)` into palette slot
`regno`; the transparency input never affects the result.
-/
theorem C3_truecolor_packing (regno red green blue transp : Nat)
    (palette : List Nat) (hreg : regno < 16)
    (hred : red < 2 ^ 16) (hgreen : green < 2 ^ 16) (hblue : blue < 2 ^ 16) :
    (gslcd_fb_setcolreg regno red green blue transp false palette).1 = 0 ∧
    (gslcd_fb_setcolreg regno red green blue transp false palette).2 =
      palette.set regno
        (((red >>> 8) <<< 16) ||| ((green >>> 8) <<< 8) ||| ((blue >>> 8) <<< 0)) ∧
    (∀ t, gslcd_fb_setcolreg regno red green blue t false palette =
          gslcd_fb_setcolreg regno red green blue transp false palette) := by
  refine ⟨?_, ?_, fun t => rfl⟩
  · simp [gslcd_fb_setcolreg, PALETTE_ENTRIES_NO, Nat.not_le.mpr hreg]
  · simp only [gslcd_fb_setcolreg, PALETTE_ENTRIES_NO, Nat.not_le.mpr hreg, if_false,
      if_neg (Nat.not_le.mpr hreg), Bool.false_eq_true, RED_SHIFT, GREEN_SHIFT, BLUE_SHIFT]
    rw [shl16_mod_u32 _ (shiftRight8_lt red hred),
        shl8_mod_u32 _ (shiftRight8_lt green hgreen),
        shl0_mod_u32 _ (shiftRight8_lt blue hblue)]

/-- Closed instance of `C3_truecolor_packing` at a concrete input. -/
theorem C3_truecolor_packing_witness :
    (gslcd_fb_setcolreg 3 43520 4608 65280 7 false (List.replicate 16 0)).1 = 0 ∧
    (gslcd_fb_setcolreg 3 43520 4608 65280 7 false (List.replicate 16 0)).2 =
      (List.replicate 16 0).set 3
        (((43520 >>> 8) <<< 16) ||| ((4608 >>> 8) <<< 8) ||| ((65280 >>> 8) <<< 0)) ∧
    (∀ t, gslcd_fb_setcolreg 3 43520 4608 65280 t false (List.replicate 16 0) =
          gslcd_fb_setcolreg 3 43520 4608 65280 7 false (List.replicate 16 0)) :=
  C3_truecolor_packing 3 43520 4608 65280 7 (List.replicate 16 0)
    (by decide) (by decide) (by decide) (by decide)

/--
C4: for every index at least 16 and all colour inputs,
`gslcd_fb_setcolreg` returns `-EINVAL` and leaves the palette completely
unmodified.
-/
theorem C4_index_out_of_range (regno red green blue transp : Nat)
    (grayscale : Bool) (palette : List Nat) (h : 16 ≤ regno) :
    (gslcd_fb_setcolreg regno red green blue transp grayscale palette).1 =
      EINVAL_NEG ∧
    (gslcd_fb_setcolreg regno red green blue transp grayscale palette).2 =
      palette := by
  constructor <;> simp [gslcd_fb_setcolreg, PALETTE_ENTRIES_NO, h]

/-- Closed instance of `C4_index_out_of_range` at index 16. -/
theorem C4_index_out_of_range_witness :
    (gslcd_fb_setcolreg 16 1 2 3 4 false (List.replicate 16 0)).1 = EINVAL_NEG ∧
    (gslcd_fb_setcolreg 16 1 2 3 4 false (List.replicate 16 0)).2 =
      List.replicate 16 0 :=
  C4_index_out_of_range 16 1 2 3 4 false (List.replicate 16 0) (by decide)

/--
C5: for every valid index and all 16-bit inputs, with grayscale enabled,
`gslcd_fb_setcolreg` replaces red, green and blue by the single luminance
value `(red*77 + green*151 + blue*28 + 127) >> 8` computed on the
pre-downshift inputs, and the red, green and blue 8-bit fields of the entry
it stores are equal to each other.
-/
theorem C5_grayscale_luminance (regno red green blue transp : Nat)
    (palette : List Nat) (hreg : regno < 16) (hlen : palette.length = 16)
    (hred : red < 2 ^ 16) (hgreen : green < 2 ^ 16) (hblue : blue < 2 ^ 16) :
    (gslcd_fb_setcolreg regno red green blue transp true palette).1 = 0 ∧
    (gslcd_fb_setcolreg regno red green blue transp true palette).2 =
      palette.set regno
        (let lum8 := ((red * 77 + green * 151 + blue * 28 + 127) >>> 8) >>> 8
         (lum8 <<< 16) ||| (lum8 <<< 8) ||| (lum8 <<< 0)) ∧
    (∃ packed,
      ((gslcd_fb_setcolreg regno red green blue transp true palette).2)[regno]? =
        some packed ∧
      (packed >>> 16) % 2 ^ 8 = (packed >>> 8) % 2 ^ 8 ∧
      (packed >>> 8) % 2 ^ 8 = packed % 2 ^ 8) := by
  have hsum : red * 77 + green * 151 + blue * 28 + 127 < U32 := by
    rw [U32]; omega
  have hmod : (red * 77 + green * 151 + blue * 28 + 127) % U32 =
      red * 77 + green * 151 + blue * 28 + 127 := Nat.mod_eq_of_lt hsum
  have hlum8 : ((red * 77 + green * 151 + blue * 28 + 127) >>> 8) >>> 8 < 2 ^ 8 := by
    rw [Nat.shiftRight_eq_div_pow, Nat.shiftRight_eq_div_pow]
    omega
  have heq : (gslcd_fb_setcolreg regno red green blue transp true palette).2 =
      palette.set regno
        (let lum8 := ((red * 77 + green * 151 + blue * 28 + 127) >>> 8) >>> 8
         (lum8 <<< 16) ||| (lum8 <<< 8) ||| (lum8 <<< 0)) := by
    simp only [gslcd_fb_setcolreg, PALETTE_ENTRIES_NO, Nat.not_le.mpr hreg, if_false,
      if_neg (Nat.not_le.mpr hreg), if_true, if_pos trivial, eq_self_iff_true,
      RED_SHIFT, GREEN_SHIFT, BLUE_SHIFT, hmod]
    rw [shl16_mod_u32 _ hlum8, shl8_mod_u32 _ hlum8, shl0_mod_u32 _ hlum8]
  refine ⟨?_, heq, ?_⟩
  · simp [gslcd_fb_setcolreg, PALETTE_ENTRIES_NO, Nat.not_le.mpr hreg]
  · refine ⟨(((red * 77 + green * 151 + blue * 28 + 127) >>> 8 >>> 8) <<< 16 |||
        ((red * 77 + green * 151 + blue * 28 + 127) >>> 8 >>> 8) <<< 8 |||
        ((red * 77 + green * 151 + blue * 28 + 127) >>> 8 >>> 8) <<< 0), ?_, ?_, ?_⟩
    · rw [heq]
      exact List.getElem?_set_eq_of_lt _ (by rw [hlen]; exact hreg)
    · exact (packed_gray_fields_eq _ hlum8).1
    · exact (packed_gray_fields_eq _ hlum8).2

/-- Closed instance of `C5_grayscale_luminance` at a concrete input. -/
theorem C5_grayscale_luminance_witness :
    (gslcd_fb_setcolreg 2 43520 4608 65280 9 true (List.replicate 16 0)).1 = 0 ∧
    (gslcd_fb_setcolreg 2 43520 4608 65280 9 true (List.replicate 16 0)).2 =
      (List.replicate 16 0).set 2
        (let lum8 := ((43520 * 77 + 4608 * 151 + 65280 * 28 + 127) >>> 8) >>> 8
         (lum8 <<< 16) ||| (lum8 <<< 8) ||| (lum8 <<< 0)) ∧
    (∃ packed,
      ((gslcd_fb_setcolreg 2 43520 4608 65280 9 true (List.replicate 16 0)).2)[2]? =
        some packed ∧
      (packed >>> 16) % 2 ^ 8 = (packed >>> 8) % 2 ^ 8 ∧
      (packed >>> 8) % 2 ^ 8 = packed % 2 ^ 8) :=
  C5_grayscale_luminance 2 43520 4608 65280 9 (List.replicate 16 0)
    (by decide) (by decide) (by decide) (by decide) (by decide)

/-! ### C6, C10: the blank operation -/

/--
C6: `gslcd_fb_blank` always returns success; `FB_BLANK_UNBLANK` writes 1 to
the enable register, yielding state `Enabled`, and each of the four blank
modes writes 0 to the enable register, yielding state `Disabled`.
-/
theorem C6_blank_state_machine (mode : Int) :
    (gslcd_fb_blank mode).2 = 0 ∧
    (mode = FB_BLANK_UNBLANK →
       (gslcd_fb_blank mode).1 = [(REG_OFF_EN, 0x1)] ∧
       ∀ s, displayStateAfter (gslcd_fb_blank mode).1 s =
         some DisplayState.Enabled) ∧
    ((mode = FB_BLANK_NORMAL ∨ mode = FB_BLANK_VSYNC_SUSPEND ∨
      mode = FB_BLANK_HSYNC_SUSPEND ∨ mode = FB_BLANK_POWERDOWN) →
       (gslcd_fb_blank mode).1 = [(REG_OFF_EN, 0x0)] ∧
       ∀ s, displayStateAfter (gslcd_fb_blank mode).1 s =
         some DisplayState.Disabled) := by
  refine ⟨?_, fun h => ?_, fun h => ?_⟩
  · unfold gslcd_fb_blank
    split_ifs <;> rfl
  · subst h
    exact ⟨rfl, fun s => rfl⟩
  · have hne : mode ≠ FB_BLANK_UNBLANK := by
      rcases h with h | h | h | h <;> subst h <;> decide
    have h1 : (gslcd_fb_blank mode).1 = [(REG_OFF_EN, 0x0)] := by
      unfold gslcd_fb_blank
      rw [if_neg hne, if_pos h]
    exact ⟨h1, fun s => by rw [h1]; rfl⟩

/-- Closed instance of `C6_blank_state_machine` at modes 0 and 4. -/
theorem C6_blank_state_machine_witness :
    ((gslcd_fb_blank 0).1 = [(REG_OFF_EN, 0x1)] ∧
     ∀ s, displayStateAfter (gslcd_fb_blank 0).1 s =
       some DisplayState.Enabled) ∧
    ((gslcd_fb_blank 4).1 = [(REG_OFF_EN, 0x0)] ∧
     ∀ s, displayStateAfter (gslcd_fb_blank 4).1 s =
       some DisplayState.Disabled) ∧
    (gslcd_fb_blank 4).2 = 0 :=
  ⟨(C6_blank_state_machine 0).2.1 rfl,
   (C6_blank_state_machine 4).2.2 (Or.inr (Or.inr (Or.inr rfl))),
   (C6_blank_state_machine 4).1⟩

/--
C10 (implicit): any blank mode outside the five named modes performs no
register write at all and still returns success.
-/
theorem C10_blank_unknown_mode (mode : Int)
    (h0 : mode ≠ FB_BLANK_UNBLANK) (h1 : mode ≠ FB_BLANK_NORMAL)
    (h2 : mode ≠ FB_BLANK_VSYNC_SUSPEND) (h3 : mode ≠ FB_BLANK_HSYNC_SUSPEND)
    (h4 : mode ≠ FB_BLANK_POWERDOWN) :
    gslcd_fb_blank mode = ([], 0) := by
  unfold gslcd_fb_blank
  rw [if_neg h0, if_neg (by simp [h1, h2, h3, h4])]

/-- Closed instance of `C10_blank_unknown_mode` at mode 5. -/
theorem C10_blank_unknown_mode_witness : gslcd_fb_blank 5 = ([], 0) :=
  C10_blank_unknown_mode 5 (by decide) (by decide) (by decide) (by decide)
    (by decide)

/-! ### Lifecycle helper lemmas and concrete scenarios -/

/-- The tail of `gslcdfb_assign` never performs a dynamic allocation. -/
lemma no_dmaAlloc_from_fb (env : Env) (pdata : PlatformData)
    (fbsize phys : Nat) (alloced : Bool) (s : Nat) :
    Event.dmaAllocCoherent s ∉
      (gslcdfb_assign_from_fb env pdata fbsize phys alloced).1 := by
  unfold gslcdfb_assign_from_fb fbTeardown
  split_ifs <;> simp

/--
A successful result of the tail of `gslcdfb_assign` carries exactly the
ownership flag the frame-buffer path established.
-/
lemma from_fb_ok_alloced (env : Env) (pdata : PlatformData)
    (fbsize phys : Nat) (alloced : Bool) (d' : Drvdata)
    (h : (gslcdfb_assign_from_fb env pdata fbsize phys alloced).2 =
      Except.ok d') :
    d'.fb_alloced = alloced := by
  unfold gslcdfb_assign_from_fb at h
  split_ifs at h <;> simp_all
  rw [← h]

/-- A fully successful environment for the dynamic-allocation path. -/
def envAllOk : Env :=
  { regs_map_rc := none
    fixed_map_ok := true
    dma_alloc := some 4096
    cmap_rc := 0
    regfb_rc := 0
    fb_init := fun i => i % 7 + 1 }

/-- Environment `envAllOk` with a failing `ioremap` of the fixed address. -/
def envFixedMapFail : Env := { envAllOk with fixed_map_ok := false }

/-- Environment `envAllOk` with a failing `dma_alloc_coherent`. -/
def envDmaFail : Env := { envAllOk with dma_alloc := none }

/-- Environment `envAllOk` with a failing `register_framebuffer`. -/
def envRegFbFail : Env := { envAllOk with regfb_rc := -5 }

/-- The default platform data with a caller-supplied fixed physical address. -/
def pdataFixed : PlatformData :=
  { gslcd_fb_default_pdata with fb_phys := 268435456 }

/-- A drvdata whose frame buffer was dynamically allocated. -/
def dAlloced : Drvdata :=
  { fb_phys := 4096
    fb_alloced := true
    smem_len := 1152000
    line_length := 2400
    fb_mem := fun _ => 0 }

/-- A drvdata whose frame buffer was externally provided. -/
def dExternal : Drvdata := { dAlloced with fb_alloced := false }

/-! ### C1: ownership-mode pairing -/

/--
C1: acquiring with a nonzero fixed physical address maps that address and
never calls the dynamic allocator, and a successful assign then carries
ownership flag `false` (externally provided); acquiring with a zero fixed
address calls the coherent allocator and a successful assign carries
ownership flag `true` (allocated); release frees with the matching strategy
only — `dma_free_coherent` of the page-rounded length when allocated (no
unmap), `iounmap` when externally provided (no free).
-/
theorem C1_ownership_pairing (env : Env) (pdata : PlatformData) (d : Drvdata) :
    (pdata.fb_phys ≠ 0 →
       (∀ s, Event.dmaAllocCoherent s ∉ (gslcdfb_assign env pdata).1) ∧
       (env.regs_map_rc = none →
          Event.ioremapFB pdata.fb_phys
              (pdata.xvirt * pdata.yvirt * BYTES_PER_PIXEL)
            ∈ (gslcdfb_assign env pdata).1) ∧
       (∀ d', (gslcdfb_assign env pdata).2 = Except.ok d' →
          d'.fb_alloced = false)) ∧
    (pdata.fb_phys = 0 → env.regs_map_rc = none →
       Event.dmaAllocCoherent
           (PAGE_ALIGN (pdata.xvirt * pdata.yvirt * BYTES_PER_PIXEL))
         ∈ (gslcdfb_assign env pdata).1 ∧
       (∀ d', (gslcdfb_assign env pdata).2 = Except.ok d' →
          d'.fb_alloced = true)) ∧
    (d.fb_alloced = true →
       Event.dmaFreeCoherent (PAGE_ALIGN d.smem_len) ∈ (gslcdfb_release d).1 ∧
       Event.iounmapFB ∉ (gslcdfb_release d).1) ∧
    (d.fb_alloced = false →
       Event.iounmapFB ∈ (gslcdfb_release d).1 ∧
       (∀ s, Event.dmaFreeCoherent s ∉ (gslcdfb_release d).1)) := by
  refine ⟨fun hnz => ⟨fun s => ?_, fun hregs => ?_, fun d' hok => ?_⟩,
          fun hz hregs => ⟨?_, fun d' hok => ?_⟩,
          fun ha => ⟨?_, ?_⟩, fun ha => ⟨?_, fun s => ?_⟩⟩
  · cases hr : env.regs_map_rc with
    | some e => simp [gslcdfb_assign, hr]
    | none =>
      cases hm : env.fixed_map_ok with
      | false => simp [gslcdfb_assign, hr, hnz, hm]
      | true => simp [gslcdfb_assign, hr, hnz, hm, no_dmaAlloc_from_fb]
  · cases hm : env.fixed_map_ok with
    | false => simp [gslcdfb_assign, hregs, hnz, hm]
    | true => simp [gslcdfb_assign, hregs, hnz, hm]
  · cases hr : env.regs_map_rc with
    | some e => simp [gslcdfb_assign, hr] at hok
    | none =>
      cases hm : env.fixed_map_ok with
      | false => simp [gslcdfb_assign, hr, hnz, hm] at hok
      | true =>
        simp only [gslcdfb_assign, hr, hnz, hm, ne_eq, not_false_eq_true,
          if_true, if_pos trivial] at hok
        exact from_fb_ok_alloced env pdata _ _ false d' hok
  · cases hd : env.dma_alloc with
    | none => simp [gslcdfb_assign, hregs, hz, hd]
    | some phys => simp [gslcdfb_assign, hregs, hz, hd]
  · cases hd : env.dma_alloc with
    | none => simp [gslcdfb_assign, hregs, hz, hd] at hok
    | some phys =>
      simp only [gslcdfb_assign, hregs, hz, hd, ne_eq, not_true_eq_false,
        if_false] at hok
      exact from_fb_ok_alloced env pdata _ _ true d' hok
  · simp [gslcdfb_release, fbTeardown, ha]
  · simp [gslcdfb_release, fbTeardown, ha]
  · simp [gslcdfb_release, fbTeardown, ha]
  · simp [gslcdfb_release, fbTeardown, ha]

/-- Closed instance of `C1_ownership_pairing` on both ownership modes. -/
theorem C1_ownership_pairing_witness :
    ((∀ s, Event.dmaAllocCoherent s ∉ (gslcdfb_assign envAllOk pdataFixed).1) ∧
     Event.ioremapFB pdataFixed.fb_phys
         (pdataFixed.xvirt * pdataFixed.yvirt * BYTES_PER_PIXEL)
       ∈ (gslcdfb_assign envAllOk pdataFixed).1) ∧
    Event.dmaAllocCoherent
        (PAGE_ALIGN (gslcd_fb_default_pdata.xvirt *
          gslcd_fb_default_pdata.yvirt * BYTES_PER_PIXEL))
      ∈ (gslcdfb_assign envAllOk gslcd_fb_default_pdata).1 ∧
    (Event.dmaFreeCoherent (PAGE_ALIGN dAlloced.smem_len)
       ∈ (gslcdfb_release dAlloced).1 ∧
     Event.iounmapFB ∉ (gslcdfb_release dAlloced).1) ∧
    (Event.iounmapFB ∈ (gslcdfb_release dExternal).1 ∧
     ∀ s, Event.dmaFreeCoherent s ∉ (gslcdfb_release dExternal).1) := by
  have h := C1_ownership_pairing envAllOk pdataFixed dAlloced
  have h2 := C1_ownership_pairing envAllOk gslcd_fb_default_pdata dExternal
  exact ⟨⟨(h.1 (by decide)).1, (h.1 (by decide)).2.1 rfl⟩,
         (h2.2.1 rfl rfl).1, h.2.2.1 rfl, h2.2.2.2 rfl⟩

/-! ### C8: release -/

/--
C8: release always returns success, and performs exactly: unregistration,
colour-map deallocation, frame-buffer release per the ownership flag, and a
write of 0 to the enable register — in that order.
-/
theorem C8_release_never_fails (d : Drvdata) :
    (gslcdfb_release d).2 = 0 ∧
    (gslcdfb_release d).1 =
      [Event.unregisterFB, Event.deallocCmap,
       if d.fb_alloced then Event.dmaFreeCoherent (PAGE_ALIGN d.smem_len)
       else Event.iounmapFB,
       Event.regWrite REG_OFF_EN 0x0] := by
  exact ⟨rfl, rfl⟩

/-! ### C2: unwind on registration failure -/

/--
C2: when `register_framebuffer` fails (step 6), the trace ends — in strict
reverse order of acquisition — with colour-map deallocation, then the
frame-buffer release matching the ownership tag, then a write of 0 to the
enable register; the registration error is propagated; and a subsequent
assign with the same config under an otherwise successful environment
succeeds.
-/
theorem C2_registration_failure_unwind (env : Env) (pdata : PlatformData)
    (hregs : env.regs_map_rc = none) (hcmap : env.cmap_rc = 0)
    (hreg : env.regfb_rc ≠ 0)
    (hfb : (pdata.fb_phys ≠ 0 ∧ env.fixed_map_ok = true) ∨
           (pdata.fb_phys = 0 ∧ ∃ p, env.dma_alloc = some p)) :
    (∃ pre,
      (gslcdfb_assign env pdata).1 =
        pre ++ [Event.registerFB, Event.deallocCmap,
          (if pdata.fb_phys = 0 then
             Event.dmaFreeCoherent
               (PAGE_ALIGN (pdata.xvirt * pdata.yvirt * BYTES_PER_PIXEL))
           else Event.iounmapFB),
          Event.regWrite REG_OFF_EN 0x0]) ∧
    (gslcdfb_assign env pdata).2 = Except.error env.regfb_rc ∧
    (∀ env2 : Env, env2.regs_map_rc = none → env2.cmap_rc = 0 →
      env2.regfb_rc = 0 →
      (pdata.fb_phys ≠ 0 → env2.fixed_map_ok = true) →
      (pdata.fb_phys = 0 → ∃ p, env2.dma_alloc = some p) →
      ∃ d', (gslcdfb_assign env2 pdata).2 = Except.ok d') := by
  refine ⟨?_, ?_, ?_⟩
  · rcases hfb with ⟨hnz, hmok⟩ | ⟨hz, p, hp⟩
    · refine ⟨[Event.devmIoremapRes,
        Event.ioremapFB pdata.fb_phys (pdata.xvirt * pdata.yvirt * BYTES_PER_PIXEL),
        Event.memsetZero (pdata.xvirt * pdata.yvirt * BYTES_PER_PIXEL),
        Event.regWrite REG_OFF_FB_PTR (pdata.fb_phys % U32),
        Event.regWrite REG_OFF_EN 0x1,
        Event.allocCmap PALETTE_ENTRIES_NO], ?_⟩
      simp [gslcdfb_assign, gslcdfb_assign_from_fb, fbTeardown, hregs, hnz,
        hmok, hcmap, hreg]
    · refine ⟨[Event.devmIoremapRes,
        Event.dmaAllocCoherent
          (PAGE_ALIGN (pdata.xvirt * pdata.yvirt * BYTES_PER_PIXEL)),
        Event.memsetZero (pdata.xvirt * pdata.yvirt * BYTES_PER_PIXEL),
        Event.regWrite REG_OFF_FB_PTR (p % U32),
        Event.regWrite REG_OFF_EN 0x1,
        Event.allocCmap PALETTE_ENTRIES_NO], ?_⟩
      simp [gslcdfb_assign, gslcdfb_assign_from_fb, fbTeardown, hregs, hz,
        hp, hcmap, hreg]
  · rcases hfb with ⟨hnz, hmok⟩ | ⟨hz, p, hp⟩
    · simp [gslcdfb_assign, gslcdfb_assign_from_fb, hregs, hnz, hmok, hcmap,
        hreg]
    · simp [gslcdfb_assign, gslcdfb_assign_from_fb, hregs, hz, hp, hcmap,
        hreg]
  · intro env2 h1 h2 h3 h4 h5
    rcases hfb with ⟨hnz, _⟩ | ⟨hz, _⟩
    · refine ⟨{ fb_phys := pdata.fb_phys, fb_alloced := false,
                smem_len := pdata.xvirt * pdata.yvirt * BYTES_PER_PIXEL,
                line_length := pdata.xvirt * BYTES_PER_PIXEL,
                fb_mem := fun i =>
                  if i < pdata.xvirt * pdata.yvirt * BYTES_PER_PIXEL then 0
                  else env2.fb_init i }, ?_⟩
      simp [gslcdfb_assign, gslcdfb_assign_from_fb, h1, hnz, h4 hnz, h2, h3]
    · obtain ⟨p, hp⟩ := h5 hz
      refine ⟨{ fb_phys := p, fb_alloced := true,
                smem_len := pdata.xvirt * pdata.yvirt * BYTES_PER_PIXEL,
                line_length := pdata.xvirt * BYTES_PER_PIXEL,
                fb_mem := fun i =>
                  if i < pdata.xvirt * pdata.yvirt * BYTES_PER_PIXEL then 0
                  else env2.fb_init i }, ?_⟩
      simp [gslcdfb_assign, gslcdfb_assign_from_fb, h1, hz, hp, h2, h3]

/-- Closed instance of `C2_registration_failure_unwind` on the allocated
path with a failing registration. -/
theorem C2_registration_failure_unwind_witness :
    (∃ pre,
      (gslcdfb_assign envRegFbFail gslcd_fb_default_pdata).1 =
        pre ++ [Event.registerFB, Event.deallocCmap,
          (if gslcd_fb_default_pdata.fb_phys = 0 then
             Event.dmaFreeCoherent
               (PAGE_ALIGN (gslcd_fb_default_pdata.xvirt *
                 gslcd_fb_default_pdata.yvirt * BYTES_PER_PIXEL))
           else Event.iounmapFB),
          Event.regWrite REG_OFF_EN 0x0]) ∧
    (gslcdfb_assign envRegFbFail gslcd_fb_default_pdata).2 =
      Except.error envRegFbFail.regfb_rc ∧
    (∀ env2 : Env, env2.regs_map_rc = none → env2.cmap_rc = 0 →
      env2.regfb_rc = 0 →
      (gslcd_fb_default_pdata.fb_phys ≠ 0 → env2.fixed_map_ok = true) →
      (gslcd_fb_default_pdata.fb_phys = 0 → ∃ p, env2.dma_alloc = some p) →
      ∃ d', (gslcdfb_assign env2 gslcd_fb_default_pdata).2 = Except.ok d') :=
  C2_registration_failure_unwind envRegFbFail gslcd_fb_default_pdata rfl rfl
    (by decide) (Or.inr ⟨rfl, 4096, rfl⟩)

/-! ### C7: fixed-address mapping failure -/

/--
C7 counterexample: with the register mapping succeeding and the mapping of a
nonzero fixed physical address failing, assign fails with `-ENOMEM` — the
same error code it produces when dynamic buffer allocation fails — so the
mapping failure is not reported by an error distinct from the out-of-memory
error.
-/
theorem C7_map_failure_counterexample :
    (gslcdfb_assign envFixedMapFail pdataFixed).2 = Except.error ENOMEM_NEG ∧
    (gslcdfb_assign envDmaFail gslcd_fb_default_pdata).2 =
      Except.error ENOMEM_NEG :=
  ⟨rfl, rfl⟩

/--
C7 amended: when acquire is given a nonzero fixed physical address and the
mapping of that address fails, the operation fails with `-ENOMEM` — the same
error code used for dynamic buffer allocation failure — after having
attempted only the fixed-address mapping.
-/
theorem C7_amended_map_failure (env : Env) (pdata : PlatformData)
    (hregs : env.regs_map_rc = none) (hnz : pdata.fb_phys ≠ 0)
    (hmap : env.fixed_map_ok = false) :
    (gslcdfb_assign env pdata).2 = Except.error ENOMEM_NEG ∧
    (gslcdfb_assign env pdata).1 =
      [Event.devmIoremapRes,
       Event.ioremapFB pdata.fb_phys
         (pdata.xvirt * pdata.yvirt * BYTES_PER_PIXEL)] := by
  constructor <;> simp [gslcdfb_assign, hregs, hnz, hmap]

/-- Closed instance of `C7_amended_map_failure` at a concrete config. -/
theorem C7_amended_map_failure_witness :
    (gslcdfb_assign envFixedMapFail pdataFixed).2 = Except.error ENOMEM_NEG ∧
    (gslcdfb_assign envFixedMapFail pdataFixed).1 =
      [Event.devmIoremapRes,
       Event.ioremapFB pdataFixed.fb_phys
         (pdataFixed.xvirt * pdataFixed.yvirt * BYTES_PER_PIXEL)] :=
  C7_amended_map_failure envFixedMapFail pdataFixed rfl (by decide) rfl

/-! ### C9: the default-config scenario -/

/--
C9: for the default config (800×480 visible and virtual, no fixed physical
address), a successful acquire yields a region of exactly
`800 * 480 * 3 = 1152000` bytes, all of whose bytes are zero, and the
zeroing happens before the frame-pointer register is programmed.
-/
theorem C9_default_config_scenario (env : Env) (phys : Nat)
    (hregs : env.regs_map_rc = none) (hdma : env.dma_alloc = some phys)
    (hcmap : env.cmap_rc = 0) (hregfb : env.regfb_rc = 0) :
    ∃ d, (gslcdfb_assign env gslcd_fb_default_pdata).2 = Except.ok d ∧
      d.smem_len = gslcd_fb_default_pdata.xvirt *
        gslcd_fb_default_pdata.yvirt * BYTES_PER_PIXEL ∧
      d.smem_len = 1152000 ∧
      (∀ i, i < 1152000 → d.fb_mem i = 0) ∧
      ∃ j k : Nat, j < k ∧
        (gslcdfb_assign env gslcd_fb_default_pdata).1[j]? =
          some (Event.memsetZero 1152000) ∧
        (gslcdfb_assign env gslcd_fb_default_pdata).1[k]? =
          some (Event.regWrite REG_OFF_FB_PTR (phys % U32)) := by
  have hsize : gslcd_fb_default_pdata.xvirt * gslcd_fb_default_pdata.yvirt *
      BYTES_PER_PIXEL = 1152000 := by
    norm_num [gslcd_fb_default_pdata, BYTES_PER_PIXEL]
  refine ⟨{ fb_phys := phys, fb_alloced := true,
            smem_len := gslcd_fb_default_pdata.xvirt *
              gslcd_fb_default_pdata.yvirt * BYTES_PER_PIXEL,
            line_length := gslcd_fb_default_pdata.xvirt * BYTES_PER_PIXEL,
            fb_mem := fun i =>
              if i < gslcd_fb_default_pdata.xvirt *
                  gslcd_fb_default_pdata.yvirt * BYTES_PER_PIXEL then 0
              else env.fb_init i }, ?_, rfl, hsize, ?_, 2, 3, ?_, ?_, ?_⟩
  · simp [gslcdfb_assign, gslcdfb_assign_from_fb, gslcd_fb_default_pdata,
      hregs, hdma, hcmap, hregfb]
  · intro i hi
    simp only [hsize]
    rw [if_pos hi]
  · omega
  · simp [gslcdfb_assign, gslcdfb_assign_from_fb, gslcd_fb_default_pdata,
      hregs, hdma, hcmap, hregfb, BYTES_PER_PIXEL]
  · simp [gslcdfb_assign, gslcdfb_assign_from_fb, gslcd_fb_default_pdata,
      hregs, hdma, hcmap, hregfb]

/-- Closed instance of `C9_default_config_scenario` at a concrete
environment. -/
theorem C9_default_config_scenario_witness :
    ∃ d, (gslcdfb_assign envAllOk gslcd_fb_default_pdata).2 = Except.ok d ∧
      d.smem_len = gslcd_fb_default_pdata.xvirt *
        gslcd_fb_default_pdata.yvirt * BYTES_PER_PIXEL ∧
      d.smem_len = 1152000 ∧
      (∀ i, i < 1152000 → d.fb_mem i = 0) ∧
      ∃ j k : Nat, j < k ∧
        (gslcdfb_assign envAllOk gslcd_fb_default_pdata).1[j]? =
          some (Event.memsetZero 1152000) ∧
        (gslcdfb_assign envAllOk gslcd_fb_default_pdata).1[k]? =
          some (Event.regWrite REG_OFF_FB_PTR (4096 % U32)) :=
  C9_default_config_scenario envAllOk 4096 rfl rfl rfl rfl

end Gslcdfb
